import Mathlib

/-!
Verification of the cafe-recommendation service core against its source.

The definitions below are shallow embeddings of the Python source files
`app/domain/models.py`, `app/services/recommendation_service.py`,
`app/services/auth_service.py`, `app/services/user_service.py`,
`app/services/search_service.py` and `app/api/dependencies.py`.
Python floats are modelled as rationals (`ℚ`) except for the haversine
distance, which is modelled over the reals; Python `dict`s are modelled
as insertion-ordered association lists; exceptions are modelled with
`Except`; `None`-able values with `Option`.
-/

namespace CafeService

/-- `PriceRange` enum from `app/domain/models.py`. -/
inductive PriceRange where
  | CHEAP
  | MEDIUM
  | HIGH
  | VERY_HIGH
  | LUXURY
  | UNKNOWN
deriving DecidableEq, Repr

/-- `PriceRange.from_google_price_level` from `app/domain/models.py`:
0→CHEAP, 1→MEDIUM, 2→HIGH, 3→VERY_HIGH, 4→LUXURY, anything else (or absent)→UNKNOWN. -/
def PriceRange.from_google_price_level (price_level : Option Int) : PriceRange :=
  match price_level with
  | none => PriceRange.UNKNOWN
  | some 0 => PriceRange.CHEAP
  | some 1 => PriceRange.MEDIUM
  | some 2 => PriceRange.HIGH
  | some 3 => PriceRange.VERY_HIGH
  | some 4 => PriceRange.LUXURY
  | some _ => PriceRange.UNKNOWN

/-- `Location` value object from `app/domain/models.py` (fields only;
the `__post_init__` validation is `mkLocation` below). -/
structure Location where
  latitude : ℚ
  longitude : ℚ
deriving DecidableEq, Repr

/-- `Location.__post_init__`: constructing a `Location` raises `ValueError`
unless the latitude is in [-90, 90] and the longitude is in [-180, 180]. -/
def mkLocation (latitude longitude : ℚ) : Except String Location :=
  if ¬(-90 ≤ latitude ∧ latitude ≤ 90) then
    Except.error "Invalid latitude"
  else if ¬(-180 ≤ longitude ∧ longitude ≤ 180) then
    Except.error "Invalid longitude"
  else
    Except.ok ⟨latitude, longitude⟩

/-- `Rating` value object from `app/domain/models.py` (fields only). -/
structure Rating where
  value : ℚ
deriving DecidableEq, Repr

/-- `Rating.__post_init__`: constructing a `Rating` raises `ValueError`
unless the value is in [0.0, 5.0]. -/
def mkRating (value : ℚ) : Except String Rating :=
  if ¬(0 ≤ value ∧ value ≤ 5) then
    Except.error "Invalid rating"
  else
    Except.ok ⟨value⟩

/-- `Cafe` entity from `app/domain/models.py` (fields only). -/
structure Cafe where
  id : String
  name : String
  address : String
  location : Location
  rating : Rating
  price_range : PriceRange
  distance_meters : Option ℚ := none
deriving DecidableEq, Repr

/-- `Cafe.__post_init__`: constructing a `Cafe` raises `ValueError` when
the id or the name is empty. -/
def mkCafe (id name address : String) (location : Location) (rating : Rating)
    (price_range : PriceRange) (distance_meters : Option ℚ) : Except String Cafe :=
  if id = "" then
    Except.error "Cafe id cannot be empty"
  else if name = "" then
    Except.error "Cafe name cannot be empty"
  else
    Except.ok ⟨id, name, address, location, rating, price_range, distance_meters⟩

/-! ### Recommendation engine (`app/services/recommendation_service.py`) -/

/-- Comparison of the second sort-key component in
`RecommendationService.filter_and_rank_cafes`:
`cafe.distance_meters if cafe.distance_meters is not None else float('inf')`,
so a missing distance compares as +infinity. -/
def extDistLE : Option ℚ → Option ℚ → Bool
  | _, none => true
  | none, some _ => false
  | some a, some b => decide (a ≤ b)

/-- The sort key ordering used by `filter_and_rank_cafes`: Python compares the
tuples `(-cafe.rating.value, distance-or-inf)` lexicographically. -/
def cafeLE (a b : Cafe) : Bool :=
  decide (-a.rating.value < -b.rating.value) ||
    (decide (-a.rating.value = -b.rating.value) && extDistLE a.distance_meters b.distance_meters)

/-- The sort-key ordering as a proposition (for `List.insertionSort`). -/
def cafeR (a b : Cafe) : Prop := cafeLE a b = true

instance : DecidableRel cafeR := fun a b => instDecidableEqBool (cafeLE a b) true

/-- The two filtering steps of `filter_and_rank_cafes`: keep cafes with
`cafe.rating.value >= min_rating`, then, only when `allowed_price_ranges` is
truthy (non-`None` and non-empty), keep cafes whose price range is a member. -/
def filteredCafes (cafes : List Cafe) (min_rating : ℚ)
    (allowed_price_ranges : Option (List PriceRange)) : List Cafe :=
  let filtered := cafes.filter (fun cafe => min_rating ≤ cafe.rating.value)
  match allowed_price_ranges with
  | none => filtered
  | some ranges =>
    if ranges.isEmpty then filtered
    else filtered.filter (fun cafe => cafe.price_range ∈ ranges)

/-- `RecommendationService.filter_and_rank_cafes`: filter by rating, filter by
price range, sort (stably, as Python's `sorted`) by
`(-rating, distance-or-inf)`, then truncate only when `limit` is truthy and
positive (`if limit and limit > 0`), so `limit = None`, `limit = 0` and
negative limits all skip truncation. -/
def filterAndRankCafes (cafes : List Cafe) (min_rating : ℚ)
    (allowed_price_ranges : Option (List PriceRange)) (limit : Option Int) : List Cafe :=
  let sorted_cafes := (filteredCafes cafes min_rating allowed_price_ranges).insertionSort cafeR
  match limit with
  | none => sorted_cafes
  | some n => if 0 < n then sorted_cafes.take n.toNat else sorted_cafes

/-- Spec-side formulation of "distance ascending, missing distance last":
two present distances compare by `≤`, a missing distance is greater than
every present one. -/
def distAscNoneLast : Option ℚ → Option ℚ → Prop
  | _, none => True
  | none, some _ => False
  | some a, some b => a ≤ b

/-- Spec-side formulation of the ranking order: rating strictly descending as
primary key, then distance ascending with missing distances last. -/
def rankedBefore (a b : Cafe) : Prop :=
  b.rating.value < a.rating.value ∨
    (a.rating.value = b.rating.value ∧ distAscNoneLast a.distance_meters b.distance_meters)

lemma extDistLE_iff (x y : Option ℚ) : extDistLE x y = true ↔ distAscNoneLast x y := by
  cases x <;> cases y <;> simp [extDistLE, distAscNoneLast]

lemma cafeR_iff (a b : Cafe) : cafeR a b ↔ rankedBefore a b := by
  unfold cafeR cafeLE rankedBefore
  rw [Bool.or_eq_true, Bool.and_eq_true, decide_eq_true_iff, decide_eq_true_iff,
    extDistLE_iff, neg_lt_neg_iff, neg_inj]

lemma distAscNoneLast_refl (x : Option ℚ) : distAscNoneLast x x := by
  cases x <;> simp [distAscNoneLast]

lemma distAscNoneLast_total (x y : Option ℚ) : distAscNoneLast x y ∨ distAscNoneLast y x := by
  cases x <;> cases y <;> simp [distAscNoneLast]
  exact le_total _ _

lemma distAscNoneLast_trans {x y z : Option ℚ} (h₁ : distAscNoneLast x y)
    (h₂ : distAscNoneLast y z) : distAscNoneLast x z := by
  cases x <;> cases y <;> cases z <;> simp_all [distAscNoneLast]
  exact le_trans h₁ h₂

lemma rankedBefore_total (a b : Cafe) : rankedBefore a b ∨ rankedBefore b a := by
  rcases lt_trichotomy a.rating.value b.rating.value with h | h | h
  · exact Or.inr (Or.inl h)
  · rcases distAscNoneLast_total a.distance_meters b.distance_meters with hd | hd
    · exact Or.inl (Or.inr ⟨h, hd⟩)
    · exact Or.inr (Or.inr ⟨h.symm, hd⟩)
  · exact Or.inl (Or.inl h)

lemma rankedBefore_trans {a b c : Cafe} (h₁ : rankedBefore a b) (h₂ : rankedBefore b c) :
    rankedBefore a c := by
  rcases h₁ with h₁ | ⟨h₁, hd₁⟩
  · rcases h₂ with h₂ | ⟨h₂, _⟩
    · exact Or.inl (lt_trans h₂ h₁)
    · exact Or.inl (h₂ ▸ h₁)
  · rcases h₂ with h₂ | ⟨h₂, hd₂⟩
    · exact Or.inl (h₁ ▸ h₂)
    · exact Or.inr ⟨h₁.trans h₂, distAscNoneLast_trans hd₁ hd₂⟩

instance : IsTotal Cafe cafeR :=
  ⟨fun a b => by rw [cafeR_iff, cafeR_iff]; exact rankedBefore_total a b⟩

instance : IsTrans Cafe cafeR :=
  ⟨fun a b c hab hbc => by
    rw [cafeR_iff] at hab hbc ⊢
    exact rankedBefore_trans hab hbc⟩

/-- A concrete cafe used to evaluate the code on the failing input of C1. -/
def limitZeroCafe : Cafe :=
  ⟨"p-limit0", "Limit Zero Cafe", "addr", ⟨0, 0⟩, ⟨4⟩, PriceRange.UNKNOWN, none⟩

/-- C1: the claim says `filter_and_rank_cafes` with `limit = 0` returns an
empty list for any non-empty input. The code guards truncation with
`if limit and limit > 0`, and `0` is falsy in Python, so `limit = 0` skips
truncation entirely and the full filtered/sorted list is returned. Evaluated
here on a one-cafe input (rating 4.0, `min_rating = 0`, no price filter):
the result is the whole list, not `[]`. This contradicts the spec and the
repository's own test `test_limit_zero`. -/
theorem filter_and_rank_limit_zero_returns_full_list :
    filterAndRankCafes [limitZeroCafe] 0 none (some 0) = [limitZeroCafe] ∧
      filterAndRankCafes [limitZeroCafe] 0 none (some 0) ≠ ([] : List Cafe) :=
  ⟨by decide, by decide⟩

/-- C4: with no limit applied, `filter_and_rank_cafes` returns the filtered
list sorted by rating descending with distance-ascending tie-break (missing
distances last): the output is pairwise ordered by `rankedBefore`, it is a
permutation of the filtered list, and the sort is stable — any two cafes with
identical rating and identical (or both-missing) distance keep their relative
input order (as sublist preservation of adjacent-equal pairs). -/
theorem filter_and_rank_sorts_and_is_stable (cafes : List Cafe) (min_rating : ℚ)
    (allowed : Option (List PriceRange)) :
    (filterAndRankCafes cafes min_rating allowed none).Pairwise rankedBefore
    ∧ List.Perm (filterAndRankCafes cafes min_rating allowed none)
        (filteredCafes cafes min_rating allowed)
    ∧ ∀ a b : Cafe, a.rating = b.rating → a.distance_meters = b.distance_meters →
        List.Sublist [a, b] (filteredCafes cafes min_rating allowed) →
        List.Sublist [a, b] (filterAndRankCafes cafes min_rating allowed none) := by
  have hdef : filterAndRankCafes cafes min_rating allowed none
      = (filteredCafes cafes min_rating allowed).insertionSort cafeR := rfl
  refine ⟨?_, ?_, ?_⟩
  · rw [hdef]
    exact (List.sorted_insertionSort cafeR _).imp (fun h => (cafeR_iff _ _).mp h)
  · rw [hdef]
    exact List.perm_insertionSort cafeR _
  · intro a b hr hd hsub
    rw [hdef]
    refine List.pair_sublist_insertionSort ?_ hsub
    rw [cafeR_iff]
    exact Or.inr ⟨by rw [hr], hd ▸ distAscNoneLast_refl a.distance_meters⟩

/-- First cafe of the C4 stability witness (rating 4.0, no distance). -/
def stableCafeA : Cafe :=
  ⟨"p-stable-a", "Stable Cafe A", "addr", ⟨0, 0⟩, ⟨4⟩, PriceRange.MEDIUM, none⟩

/-- Second cafe of the C4 stability witness (same rating and distance). -/
def stableCafeB : Cafe :=
  ⟨"p-stable-b", "Stable Cafe B", "addr", ⟨0, 0⟩, ⟨4⟩, PriceRange.CHEAP, none⟩

/-- Witness for C4: two concrete cafes with equal rating and equal (missing)
distance keep their input order through `filter_and_rank_cafes`. -/
theorem filter_and_rank_sorts_and_is_stable_witness :
    List.Sublist [stableCafeA, stableCafeB]
      (filterAndRankCafes [stableCafeA, stableCafeB] 0 none none) := by
  have h : filteredCafes [stableCafeA, stableCafeB] 0 none = [stableCafeA, stableCafeB] := by
    decide
  exact (filter_and_rank_sorts_and_is_stable [stableCafeA, stableCafeB] 0 none).2.2
    stableCafeA stableCafeB rfl rfl (h ▸ List.Sublist.refl _)

/-! ### Auth service (`app/services/auth_service.py`) -/

/-- Modelled from the spec: the `User` dataclass (`app.domain.models.User`) is
imported by `user_service.py` and `auth_service.py` but its definition is not
under `src/` (`app/domain/models.py` there only defines `PriceRange`,
`Location`, `Rating` and `Cafe`). Spec §3 "Identity" gives
{unique id, normalized (lower-cased) email, password hash, active flag,
creation timestamp}. -/
structure User where
  id : String
  email : String
  hashed_password : String
  is_active : Bool
  created_at : Int
deriving DecidableEq, Repr

/-- The JWT-relevant fields of `Settings` from `app/config.py`. -/
structure AuthSettings where
  JWT_SECRET_KEY : String
  JWT_ALGORITHM : String
  ACCESS_TOKEN_EXPIRE_MINUTES : Int
deriving DecidableEq, Repr

/-- The payload dict built by `AuthService.create_access_token`:
`{"sub": user.id, "email": user.email, "exp": expire, "iat": now,
"type": "access"}`. `sub` and `email` are `Option` so that tokens minted by
other parties (missing claims) are representable; timestamps are integer
seconds. -/
structure JwtPayload where
  sub : Option String
  email : Option String
  exp : Int
  iat : Int
  typ : String
deriving DecidableEq, Repr

/-- Model of an encoded JWT string, with idealized cryptography: a token
produced by `jwt.encode` records its payload together with the secret and
algorithm it was signed with, and signature verification succeeds only with
that same secret and algorithm (perfect unforgeability); `malformed` stands
for any string that is not such a token. -/
inductive JwtToken where
  | malformed (s : String)
  | signed (payload : JwtPayload) (secret : String) (alg : String)
deriving DecidableEq, Repr

/-- Model of `jose.jwt.decode(token, key, algorithms=[...])`: raises
`JWTError` for a malformed token, for a signature made with a different
secret, for an algorithm outside the allowed list, and for an expired token
(jose rejects exactly when `exp < now`, with zero leeway, so a token checked
at `now = exp` is still accepted); otherwise returns the payload. -/
def jwtDecode (token : JwtToken) (key : String) (algorithms : List String)
    (now : Int) : Except String JwtPayload :=
  match token with
  | .malformed _ => .error "Not enough segments"
  | .signed payload secret alg =>
    if secret ≠ key then .error "Signature verification failed"
    else if alg ∉ algorithms then .error "The specified alg value is not allowed"
    else if payload.exp < now then .error "Signature has expired"
    else .ok payload

/-- `TokenData` schema from `app/schemas/auth.py`. The schema declares
`user_id: Optional[str] = None`, but `verify_token` constructs it only after
checking that the `sub` claim is not `None`, so every `TokenData` it returns
carries a string; modelled with `user_id : String`. -/
structure TokenData where
  user_id : String
  email : Option String
deriving DecidableEq, Repr

/-- `AuthService.verify_token`: decode with the configured secret and (list
containing only the) configured algorithm; on any `JWTError` return `None`;
if the decoded payload has no `sub` claim return `None`; otherwise return
`TokenData(user_id, email)`. The only check on `sub` is `user_id is None` —
an empty string passes. -/
def verifyToken (settings : AuthSettings) (now : Int) (token : JwtToken) :
    Option TokenData :=
  match jwtDecode token settings.JWT_SECRET_KEY [settings.JWT_ALGORITHM] now with
  | .error _ => none
  | .ok payload =>
    match payload.sub with
    | none => none
    | some user_id => some ⟨user_id, payload.email⟩

/-- The expiry timestamp computed by `create_access_token`:
`now + expires_delta` when a delta is given, else
`now + ACCESS_TOKEN_EXPIRE_MINUTES` minutes. -/
def tokenExpiry (settings : AuthSettings) (now : Int) (expires_delta : Option Int) : Int :=
  match expires_delta with
  | some delta => now + delta
  | none => now + settings.ACCESS_TOKEN_EXPIRE_MINUTES * 60

/-- `AuthService.create_access_token`: sign
`{"sub": user.id, "email": user.email, "exp": expire, "iat": now,
"type": "access"}` with the configured secret and algorithm. -/
def createAccessToken (settings : AuthSettings) (user : User) (now : Int)
    (expires_delta : Option Int) : JwtToken :=
  .signed ⟨some user.id, some user.email, tokenExpiry settings now expires_delta, now, "access"⟩
    settings.JWT_SECRET_KEY settings.JWT_ALGORITHM

/-- Settings used by the C2 counterexample. -/
def emptySubSettings : AuthSettings := ⟨"secret-key", "HS256", 30⟩

/-- A token signed with the configured secret and algorithm whose `sub` claim
is the empty string and whose expiry equals the verification time. -/
def emptySubToken : JwtToken :=
  .signed ⟨some "", some "e@x.com", 0, 0, "access"⟩ "secret-key" "HS256"

/-- C2 counterexample: the claim says `verify_token` returns claims only if
(among other conditions) the current time is strictly before expires-at and
the `sub` claim is non-empty. Here the token's `sub` is `""` and it is
verified exactly at its expiry timestamp (`now = exp = 0`), yet the code
returns decoded claims: jose rejects only `exp < now`, and `verify_token`
only checks `payload.get("sub") is None`, so an empty subject id passes. -/
theorem verify_token_accepts_empty_sub_at_expiry :
    verifyToken emptySubSettings 0 emptySubToken = some ⟨"", some "e@x.com"⟩ := by
  decide

/-- C2 (amended): `verify_token` returns decoded claims iff the token was
signed with the configured secret and the configured algorithm, is not
expired (`now ≤ exp`; the expiry instant itself is accepted), and its `sub`
claim is present (possibly the empty string); in every other case it returns
`None` — it never raises, since `verify_token` catches `JWTError` (it is
total here by construction, returning an `Option`). -/
theorem verify_token_some_iff (settings : AuthSettings) (now : Int)
    (token : JwtToken) (td : TokenData) :
    verifyToken settings now token = some td ↔
      ∃ payload uid,
        token = JwtToken.signed payload settings.JWT_SECRET_KEY settings.JWT_ALGORITHM
        ∧ now ≤ payload.exp ∧ payload.sub = some uid ∧ td = ⟨uid, payload.email⟩ := by
  rcases token with s | ⟨p, s, a⟩
  · simp [verifyToken, jwtDecode]
  · simp only [verifyToken, jwtDecode]
    by_cases hs : s = settings.JWT_SECRET_KEY
    · subst hs
      rw [if_neg (by simp)]
      by_cases ha : a = settings.JWT_ALGORITHM
      · subst ha
        rw [if_neg (by simp)]
        by_cases he : p.exp < now
        · rw [if_pos he]
          simp only [reduceCtorEq, false_iff]
          rintro ⟨q, uid, hq, hle, -⟩
          obtain ⟨rfl, -, -⟩ := JwtToken.signed.injEq .. ▸ hq
          omega
        · rw [if_neg he]
          rcases hsub : p.sub with - | uid
          · simp only [hsub, reduceCtorEq, false_iff]
            rintro ⟨q, uid, hq, -, hqsub, -⟩
            obtain ⟨rfl, -, -⟩ := JwtToken.signed.injEq .. ▸ hq
            rw [hsub] at hqsub
            exact Option.noConfusion hqsub
          · simp only [hsub, Option.some.injEq]
            constructor
            · rintro rfl
              exact ⟨p, uid, rfl, by omega, hsub, rfl⟩
            · rintro ⟨q, uid', hq, -, hqsub, rfl⟩
              obtain ⟨rfl, -, -⟩ := JwtToken.signed.injEq .. ▸ hq
              rw [hsub] at hqsub
              obtain rfl := Option.some.injEq .. ▸ hqsub
              rfl
      · rw [if_pos (by simpa using ha)]
        simp only [reduceCtorEq, false_iff]
        rintro ⟨q, uid, hq, -⟩
        obtain ⟨-, -, hqa⟩ := JwtToken.signed.injEq .. ▸ hq
        exact ha hqa
    · rw [if_pos hs]
      simp only [reduceCtorEq, false_iff]
      rintro ⟨q, uid, hq, -⟩
      obtain ⟨-, hqs, -⟩ := JwtToken.signed.injEq .. ▸ hq
      exact hs hqs

/-- C5: verifying a token freshly issued for an identity, with the same
settings and at any time up to the token's expiry, succeeds and returns
claims whose subject id equals the identity's id. -/
theorem create_then_verify_roundtrip (settings : AuthSettings) (user : User)
    (issued now : Int) (expires_delta : Option Int)
    (h : now ≤ tokenExpiry settings issued expires_delta) :
    verifyToken settings now (createAccessToken settings user issued expires_delta)
      = some ⟨user.id, some user.email⟩ := by
  simp only [verifyToken, createAccessToken, jwtDecode]
  rw [if_neg (by simp), if_neg (by simp), if_neg (by exact not_lt.mpr h)]

/-- Settings used by the C5 witness. -/
def demoSettings : AuthSettings := ⟨"demo-secret", "HS256", 30⟩

/-- Identity used by the C5 witness. -/
def demoUser : User := ⟨"user-1", "a@b.com", "$2b$12$hash", true, 0⟩

/-- Witness for C5: a token issued at time 0 with the default expiry
(30 minutes) verifies at time 50 and yields the identity's id. -/
theorem create_then_verify_roundtrip_witness :
    (50 : Int) ≤ tokenExpiry demoSettings 0 none ∧
      verifyToken demoSettings 50 (createAccessToken demoSettings demoUser 0 none)
        = some ⟨"user-1", some "a@b.com"⟩ :=
  ⟨by decide, create_then_verify_roundtrip demoSettings demoUser 0 50 none (by decide)⟩

/-! ### User service (`app/services/user_service.py`) -/

/-- Model of Python `str.lower()`: ASCII case folding, mapped over the
string's characters (implemented structurally so it evaluates in the
kernel; the emails in this development are ASCII). -/
def strLower (s : String) : String := ⟨s.data.map Char.toLower⟩

instance {ε α : Type} [DecidableEq ε] [DecidableEq α] : DecidableEq (Except ε α) := fun a b =>
  match a, b with
  | .ok x, .ok y => decidable_of_iff (x = y) (by simp)
  | .error x, .error y => decidable_of_iff (x = y) (by simp)
  | .ok _, .error _ => isFalse (by simp)
  | .error _, .ok _ => isFalse (by simp)

/-- Insertion-ordered association-list model of assignment into a Python
`dict[str, β]`: an existing key is updated in place, a new key is appended. -/
def dictSet {β : Type} : List (String × β) → String → β → List (String × β)
  | [], k, v => [(k, v)]
  | (k', v') :: rest, k, v =>
    if k' = k then (k, v) :: rest else (k', v') :: dictSet rest k v

/-- Model of Python `dict.get(k)`. -/
def dictGet {β : Type} (d : List (String × β)) (k : String) : Option β :=
  (d.find? (fun p => p.1 == k)).map Prod.snd

/-- The in-memory state of `UserService`: `self._users : dict[str, User]`
(id → user) and `self._email_index : dict[str, str]` (email → user id). -/
structure UserStore where
  users : List (String × User)
  email_index : List (String × String)
deriving DecidableEq, Repr

/-- `UserService.create_user`. The `User` dataclass generates the id,
`is_active = True` and the creation time internally; those effects are passed
as the explicit arguments `fresh_id` and `created_at`. The result is the
Python outcome (created user or raised `ValueError`) together with the
post-call store. -/
def createUser (store : UserStore) (email hashed_password : String)
    (fresh_id : String) (created_at : Int) : Except String User × UserStore :=
  if (dictGet store.email_index (strLower email)).isSome then
    (.error ("User with email " ++ email ++ " already exists"), store)
  else
    let user : User := ⟨fresh_id, strLower email, hashed_password, true, created_at⟩
    (.ok user,
      ⟨dictSet store.users user.id user, dictSet store.email_index (strLower email) user.id⟩)

/-- `UserService.get_user_by_id`: `self._users.get(user_id)`. -/
def getUserById (store : UserStore) (user_id : String) : Option User :=
  dictGet store.users user_id

lemma dictGet_dictSet_self {β : Type} (d : List (String × β)) (k : String) (v : β) :
    dictGet (dictSet d k v) k = some v := by
  induction d with
  | nil => simp [dictSet, dictGet]
  | cons p rest ih =>
    rcases p with ⟨k', v'⟩
    by_cases h : k' = k
    · subst h
      simp [dictSet, dictGet]
    · simp only [dictSet, if_neg h, dictGet, List.find?]
      rw [show (((k', v') : String × β).1 == k) = false from beq_eq_false_iff_ne.mpr h]
      exact ih

/-- C7: once a user with some email has been created successfully, a second
`create_user` with any email that normalizes (lower-cases) to the same
string fails with the duplicate-email `ValueError`, and the store — both the
id→user map and the email→id index — is unchanged by the failed call. -/
theorem create_user_duplicate_email_fails (store store' : UserStore)
    (e₁ h₁ id₁ : String) (t₁ : Int) (u : User) (e₂ h₂ id₂ : String) (t₂ : Int)
    (hnorm : strLower e₂ = strLower e₁)
    (hfirst : createUser store e₁ h₁ id₁ t₁ = (.ok u, store')) :
    createUser store' e₂ h₂ id₂ t₂
      = (.error ("User with email " ++ e₂ ++ " already exists"), store') := by
  unfold createUser at hfirst ⊢
  by_cases hc : (dictGet store.email_index (strLower e₁)).isSome
  · rw [if_pos hc] at hfirst
    exact absurd (congrArg Prod.fst hfirst) (by simp)
  · rw [if_neg hc] at hfirst
    have hstore : store' =
        ⟨dictSet store.users id₁ ⟨id₁, strLower e₁, h₁, true, t₁⟩,
         dictSet store.email_index (strLower e₁) id₁⟩ :=
      (congrArg Prod.snd hfirst).symm
    subst hstore
    rw [if_pos (by rw [hnorm, dictGet_dictSet_self]; rfl)]

/-- Store state after registering `a@b.com` into an empty `UserService`
(used by the C7 witness). -/
def dupStore : UserStore :=
  ⟨[("id-1", ⟨"id-1", "a@b.com", "hash1", true, 0⟩)], [("a@b.com", "id-1")]⟩

/-- Witness for C7: registering `a@b.com` into the empty store succeeds and
produces `dupStore`; re-registering the case variant `A@B.COM` then fails
with the duplicate error and leaves `dupStore` unchanged. -/
theorem create_user_duplicate_email_fails_witness :
    createUser dupStore "A@B.COM" "hash2" "id-2" 1
      = (.error "User with email A@B.COM already exists", dupStore) :=
  create_user_duplicate_email_fails ⟨[], []⟩ dupStore "a@b.com" "hash1" "id-1" 0
    ⟨"id-1", "a@b.com", "hash1", true, 0⟩ "A@B.COM" "hash2" "id-2" 1
    (by decide) (by decide)

/-! ### Auth guard (`app/api/dependencies.py`) -/

/-- The caller-visible payload of a FastAPI `HTTPException`. -/
structure HttpError where
  status_code : Nat
  detail : String
deriving DecidableEq, Repr

/-- `get_current_user` from `app/api/dependencies.py`, given the bearer token
already extracted by the `HTTPBearer` security scheme (a request with no
token at all is rejected by that framework dependency before this code
runs). -/
def getCurrentUser (settings : AuthSettings) (store : UserStore) (now : Int)
    (token : JwtToken) : Except HttpError User :=
  match verifyToken settings now token with
  | none => .error ⟨401, "Invalid or expired token"⟩
  | some token_data =>
    match getUserById store token_data.user_id with
    | none => .error ⟨401, "Could not validate credentials"⟩
    | some user =>
      if user.is_active = false then .error ⟨401, "User account is inactive"⟩
      else .ok user

/-- Settings used by the C3 concrete store. -/
def guardSettings : AuthSettings := ⟨"guard-secret", "HS256", 30⟩

/-- A store containing exactly one, inactive, user `u2`. -/
def guardStore : UserStore :=
  ⟨[("u2", ⟨"u2", "b@x.com", "hash", false, 0⟩)], [("b@x.com", "u2")]⟩

/-- A valid token whose subject `u1` does not exist in `guardStore`. -/
def tokenNonexistent : JwtToken :=
  .signed ⟨some "u1", some "a@x.com", 100, 0, "access"⟩ "guard-secret" "HS256"

/-- A valid token whose subject `u2` exists in `guardStore` but is inactive. -/
def tokenInactive : JwtToken :=
  .signed ⟨some "u2", some "b@x.com", 100, 0, "access"⟩ "guard-secret" "HS256"

/-- C3 counterexample: a verified token for a nonexistent account is rejected
with 401 "Could not validate credentials" while one for an inactive account
is rejected with 401 "User account is inactive" — the two caller-visible
rejections are different, so the guard does distinguish a nonexistent account
from an inactive one (contrary to the claim that the rejection does not
distinguish them). -/
theorem get_current_user_distinguishes_nonexistent_from_inactive :
    getCurrentUser guardSettings guardStore 0 tokenNonexistent
        = .error ⟨401, "Could not validate credentials"⟩
      ∧ getCurrentUser guardSettings guardStore 0 tokenInactive
        = .error ⟨401, "User account is inactive"⟩
      ∧ getCurrentUser guardSettings guardStore 0 tokenNonexistent
        ≠ getCurrentUser guardSettings guardStore 0 tokenInactive := by
  refine ⟨by decide, by decide, by decide⟩

/-- C3 (amended): for a request whose token verifies, both a nonexistent and
an inactive subject are rejected with HTTP status 401 — the same
"unauthenticated" status class as an invalid token — but with different
detail strings ("Could not validate credentials" vs "User account is
inactive"), so the response body does distinguish the two cases even though
the status code does not. -/
theorem get_current_user_unauthenticated_rejections (settings : AuthSettings)
    (store : UserStore) (now : Int) (token : JwtToken) (td : TokenData)
    (hv : verifyToken settings now token = some td) :
    (getUserById store td.user_id = none →
      getCurrentUser settings store now token
        = .error ⟨401, "Could not validate credentials"⟩)
    ∧ (∀ u, getUserById store td.user_id = some u → u.is_active = false →
      getCurrentUser settings store now token
        = .error ⟨401, "User account is inactive"⟩) := by
  unfold getCurrentUser
  constructor
  · intro h
    simp only [hv, h]
  · intro u hu hi
    simp only [hv, hu, hi]
    exact if_pos trivial

/-- Witness for the amended C3 theorem, applying it to `guardStore` with the
nonexistent-subject token. -/
theorem get_current_user_unauthenticated_rejections_witness :
    getCurrentUser guardSettings guardStore 0 tokenNonexistent
      = .error ⟨401, "Could not validate credentials"⟩ :=
  (get_current_user_unauthenticated_rejections guardSettings guardStore 0
    tokenNonexistent ⟨"u1", some "a@x.com"⟩ (by decide)).1 (by decide)

/-! ### Search service mapping (`app/services/search_service.py`) -/

/-- The `location` sub-dict of a raw Google Places result. -/
structure RawLocation where
  lat : Option ℚ
  lng : Option ℚ
deriving DecidableEq, Repr

/-- The `geometry` sub-dict of a raw Google Places result. -/
structure RawGeometry where
  location : Option RawLocation
deriving DecidableEq, Repr

/-- A raw Google Places result (`Dict[str, Any]`), restricted to the keys
`_map_google_result_to_cafe` reads. -/
structure RawPlace where
  geometry : Option RawGeometry
  rating : Option ℚ
  price_level : Option Int
  place_id : Option String
  name : Option String
  vicinity : Option String
  formatted_address : Option String
deriving DecidableEq, Repr

/-- `result.get("geometry", {}).get("location", {}).get("lat", 0.0)`. -/
def rawLat (r : RawPlace) : ℚ :=
  match r.geometry with
  | none => 0
  | some g =>
    match g.location with
    | none => 0
    | some l => l.lat.getD 0

/-- `result.get("geometry", {}).get("location", {}).get("lng", 0.0)`. -/
def rawLng (r : RawPlace) : ℚ :=
  match r.geometry with
  | none => 0
  | some g =>
    match g.location with
    | none => 0
    | some l => l.lng.getD 0

/-- `SearchService._map_google_result_to_cafe`. The distance computation
`self.calculate_distance` is passed as the parameter `dist` (the claims about
the mapper hold for every distance function, in particular for the haversine
`calculate_distance` modelled over ℝ below); any `ValueError` raised by the
`Location`, `Rating` or `Cafe` constructors propagates as an `error`. -/
def mapGoogleResultToCafe (dist : ℚ → ℚ → ℚ → ℚ → ℚ) (result : RawPlace)
    (user_lat user_lng : ℚ) : Except String Cafe := do
  let cafe_lat := rawLat result
  let cafe_lng := rawLng result
  let location ← mkLocation cafe_lat cafe_lng
  let rating ← mkRating (result.rating.getD 0)
  let price_range := PriceRange.from_google_price_level result.price_level
  let distance := dist user_lat user_lng cafe_lat cafe_lng
  let place_id := result.place_id.getD ""
  let name := result.name.getD "Unknown Cafe"
  let address := result.vicinity.getD (result.formatted_address.getD "Address not available")
  mkCafe place_id name address location rating price_range (some distance)

/-- The mapping loop of `SearchService.search_cafes`: each raw result is
mapped inside `try/except`; a failing record is logged and skipped
(`continue`), a successful one is appended. -/
def mapCafeResults (dist : ℚ → ℚ → ℚ → ℚ → ℚ) (user_lat user_lng : ℚ) :
    List RawPlace → List Cafe
  | [] => []
  | r :: rs =>
    match mapGoogleResultToCafe dist r user_lat user_lng with
    | .ok cafe => cafe :: mapCafeResults dist user_lat user_lng rs
    | .error _ => mapCafeResults dist user_lat user_lng rs

lemma mkLocation_ok {la ln : ℚ} (h₁ : -90 ≤ la ∧ la ≤ 90) (h₂ : -180 ≤ ln ∧ ln ≤ 180) :
    mkLocation la ln = .ok ⟨la, ln⟩ := by
  unfold mkLocation
  rw [if_neg (by tauto), if_neg (by tauto)]

lemma mkRating_ok {v : ℚ} (h : 0 ≤ v ∧ v ≤ 5) : mkRating v = .ok ⟨v⟩ := by
  unfold mkRating
  rw [if_neg (by tauto)]

lemma mkCafe_ok {i n a : String} {loc : Location} {rat : Rating} {pr : PriceRange}
    {d : Option ℚ} {c : Cafe} (h : mkCafe i n a loc rat pr d = .ok c) :
    c = ⟨i, n, a, loc, rat, pr, d⟩ ∧ i ≠ "" ∧ n ≠ "" := by
  unfold mkCafe at h
  split_ifs at h with h₁ h₂
  exact ⟨(Except.ok.inj h).symm, h₁, h₂⟩

lemma mkCafe_ok_of {i n a : String} {loc : Location} {rat : Rating} {pr : PriceRange}
    {d : Option ℚ} (hi : i ≠ "") (hn : n ≠ "") :
    mkCafe i n a loc rat pr d = .ok ⟨i, n, a, loc, rat, pr, d⟩ := by
  unfold mkCafe
  rw [if_neg hi, if_neg hn]

lemma mapGoogleResultToCafe_ok_iff (dist : ℚ → ℚ → ℚ → ℚ → ℚ) (r : RawPlace)
    (user_lat user_lng : ℚ) (c : Cafe) :
    mapGoogleResultToCafe dist r user_lat user_lng = .ok c ↔
      ∃ loc rat, mkLocation (rawLat r) (rawLng r) = .ok loc
        ∧ mkRating (r.rating.getD 0) = .ok rat
        ∧ mkCafe (r.place_id.getD "") (r.name.getD "Unknown Cafe")
            (r.vicinity.getD (r.formatted_address.getD "Address not available"))
            loc rat (PriceRange.from_google_price_level r.price_level)
            (some (dist user_lat user_lng (rawLat r) (rawLng r))) = .ok c := by
  unfold mapGoogleResultToCafe
  cases hloc : mkLocation (rawLat r) (rawLng r) <;>
    cases hrat : mkRating (r.rating.getD 0) <;>
      simp [Bind.bind, Except.bind, hloc, hrat]

/-- C6: the mapping loop of `search_cafes` never aborts on a record that
cannot be converted: its output is exactly the order-preserving subsequence
of successfully mapped records — `filterMap` of the per-record mapper — so a
failing record is skipped, every other record is still processed, and no
per-record failure is surfaced to the caller (the loop is total and returns
a plain list). -/
theorem search_mapping_skips_bad_records (dist : ℚ → ℚ → ℚ → ℚ → ℚ)
    (user_lat user_lng : ℚ) (results : List RawPlace) :
    mapCafeResults dist user_lat user_lng results
      = results.filterMap
          (fun r => (mapGoogleResultToCafe dist r user_lat user_lng).toOption) := by
  induction results with
  | nil => rfl
  | cons r rs ih =>
    simp only [mapCafeResults, List.filterMap_cons]
    cases h : mapGoogleResultToCafe dist r user_lat user_lng <;>
      simp [h, ih, Except.toOption]

/-- C10: every `Cafe` the place mapper produces has a non-empty id and a
non-empty name; a record whose `place_id` is missing or empty never yields a
`Cafe` (construction rejects the empty id, so the record is dropped); a
record missing its `name` that does map yields the fallback name
"Unknown Cafe", and such a record with a valid id, coordinates and rating is
indeed kept. -/
theorem place_mapper_id_name_invariants (dist : ℚ → ℚ → ℚ → ℚ → ℚ) (r : RawPlace)
    (user_lat user_lng : ℚ) :
    (∀ c, mapGoogleResultToCafe dist r user_lat user_lng = .ok c → c.id ≠ "" ∧ c.name ≠ "")
    ∧ ((r.place_id = none ∨ r.place_id = some "") →
        ∀ c, mapGoogleResultToCafe dist r user_lat user_lng ≠ .ok c)
    ∧ (r.name = none → ∀ c, mapGoogleResultToCafe dist r user_lat user_lng = .ok c →
        c.name = "Unknown Cafe")
    ∧ (r.name = none → ∀ pid, r.place_id = some pid → pid ≠ "" →
        (-90 ≤ rawLat r ∧ rawLat r ≤ 90) → (-180 ≤ rawLng r ∧ rawLng r ≤ 180) →
        (0 ≤ r.rating.getD 0 ∧ r.rating.getD 0 ≤ 5) →
        ∃ c, mapGoogleResultToCafe dist r user_lat user_lng = .ok c
          ∧ c.name = "Unknown Cafe") := by
  refine ⟨?_, ?_, ?_, ?_⟩
  · intro c hc
    obtain ⟨loc, rat, -, -, hcafe⟩ := (mapGoogleResultToCafe_ok_iff dist r user_lat user_lng c).mp hc
    obtain ⟨rfl, hid, hname⟩ := mkCafe_ok hcafe
    exact ⟨hid, hname⟩
  · intro hpid c hc
    obtain ⟨loc, rat, -, -, hcafe⟩ := (mapGoogleResultToCafe_ok_iff dist r user_lat user_lng c).mp hc
    obtain ⟨-, hid, -⟩ := mkCafe_ok hcafe
    rcases hpid with h | h <;> rw [h] at hid <;> exact hid rfl
  · intro hname c hc
    obtain ⟨loc, rat, -, -, hcafe⟩ := (mapGoogleResultToCafe_ok_iff dist r user_lat user_lng c).mp hc
    obtain ⟨rfl, -, -⟩ := mkCafe_ok hcafe
    rw [hname]
    rfl
  · intro hname pid hpid hpid' hlat hlng hrat
    refine ⟨⟨pid, "Unknown Cafe",
      r.vicinity.getD (r.formatted_address.getD "Address not available"),
      ⟨rawLat r, rawLng r⟩, ⟨r.rating.getD 0⟩,
      PriceRange.from_google_price_level r.price_level,
      some (dist user_lat user_lng (rawLat r) (rawLng r))⟩, ?_, rfl⟩
    rw [mapGoogleResultToCafe_ok_iff]
    refine ⟨⟨rawLat r, rawLng r⟩, ⟨r.rating.getD 0⟩,
      mkLocation_ok hlat hlng, mkRating_ok hrat, ?_⟩
    rw [hname, hpid]
    exact mkCafe_ok_of hpid' (by decide)

/-- A raw record with no `name` key, a valid `place_id` and no geometry
(used by the C10 witness). -/
def unnamedRawPlace : RawPlace :=
  ⟨none, some 4, some 1, some "pid-7", none, some "Street 1", none⟩

/-- Witness for C10: the concrete record `unnamedRawPlace`, which is missing
its name, still maps to a `Cafe`, and that cafe carries the fallback name
"Unknown Cafe". -/
theorem place_mapper_id_name_invariants_witness :
    ∃ c, mapGoogleResultToCafe (fun _ _ _ _ => 0) unnamedRawPlace 0 0 = .ok c
      ∧ c.name = "Unknown Cafe" :=
  (place_mapper_id_name_invariants (fun _ _ _ _ => 0) unnamedRawPlace 0 0).2.2.2
    rfl "pid-7" rfl (by decide) (by decide) (by decide) (by decide)

/-! ### Password hashing (`app/services/auth_service.py`, `pwd_context`) -/

/-- A byte string: the UTF-8 encoding of a Python `str` password (bcrypt
operates on the encoded bytes, so plaintexts are modelled at the byte
level). -/
abbrev ByteStr := List Nat

/-- A well-formed bcrypt digest as produced by
`CryptContext(schemes=["bcrypt"]).hash`: modelled as an idealized
collision-free one-way function of the salt and of the password material
bcrypt actually consumes — the first 72 bytes of the password (bcrypt
silently truncates anything longer). -/
structure BcryptDigest where
  salt : Nat
  key : ByteStr
deriving DecidableEq, Repr

/-- A stored hash as seen by `verify_password`: either a well-formed bcrypt
digest, or an arbitrary string that no configured scheme can identify. -/
inductive StoredHash where
  | wellFormed (d : BcryptDigest)
  | malformed (s : String)
deriving DecidableEq, Repr

/-- `AuthService.hash_password`: `pwd_context.hash(password)`. The fresh
random salt is passed explicitly; bcrypt consumes only the first 72 bytes of
the password. Total for every byte string, of any length. -/
def hashPassword (password : ByteStr) (salt : Nat) : BcryptDigest :=
  ⟨salt, password.take 72⟩

/-- `AuthService.verify_password`: `pwd_context.verify(plain, hashed)`.
passlib recomputes the bcrypt hash of the candidate (truncated to 72 bytes)
under the digest's salt and compares. When the stored hash cannot be
identified as any configured scheme, `CryptContext.verify` raises
`ValueError` instead of returning `False`. -/
def verifyPassword (plain_password : ByteStr) (hashed_password : StoredHash) :
    Except String Bool :=
  match hashed_password with
  | .malformed _ => .error "hash could not be identified"
  | .wellFormed d => .ok (decide (plain_password.take 72 = d.key))

/-- C8 counterexample: take the 10,000-byte plaintext `p` = 10000 copies of
byte 97 (`"a" * 10000`). The claim requires `verify(p, hash(p + "x"))` to be
`False`; but bcrypt consumes only the first 72 bytes, on which `p` and
`p ++ "x"` agree, so verification succeeds. -/
theorem verify_password_ignores_suffix_beyond_72_bytes :
    verifyPassword (List.replicate 10000 97)
        (.wellFormed (hashPassword (List.replicate 10000 97 ++ [120]) 0))
      = .ok true := by
  unfold verifyPassword hashPassword
  rw [List.take_append_of_le_length (by rw [List.length_replicate]; norm_num)]
  exact congrArg Except.ok (decide_eq_true rfl)

/-- C8 (amended): `hash` and `verify` are total for arbitrary byte strings,
including inputs of 10,000 bytes and more (no crash); `verify(p, hash(p))` is
`True`; but `verify` compares only the first 72 bytes of the plaintext
against the digest (bcrypt truncation), so `verify(p, hash(q))` under the
same salt is `True` exactly when `p` and `q` agree on their first 72 bytes —
in particular `verify(p, hash(p + "x"))` is `True` for any `p` of length
≥ 72 — and for a malformed digest `verify` raises `ValueError` rather than
returning `False`. -/
theorem verify_password_matches_truncated_prefix (p q : ByteStr) (salt : Nat) :
    verifyPassword p (.wellFormed (hashPassword p salt)) = .ok true
    ∧ (verifyPassword p (.wellFormed (hashPassword q salt)) = .ok true
        ↔ p.take 72 = q.take 72)
    ∧ ∀ s, verifyPassword p (.malformed s) = .error "hash could not be identified" := by
  refine ⟨?_, ?_, fun s => rfl⟩
  · unfold verifyPassword hashPassword
    simp
  · unfold verifyPassword hashPassword
    simp

/-! ### Haversine distance (`SearchService.calculate_distance`) -/

/-- `math.radians`: degrees to radians. -/
noncomputable def radiansR (x : ℝ) : ℝ := x * (Real.pi / 180)

/-- `math.atan2(y, x)`: the two-argument arctangent. -/
noncomputable def atan2 (y x : ℝ) : ℝ :=
  if 0 < x then Real.arctan (y / x)
  else if x < 0 ∧ 0 ≤ y then Real.arctan (y / x) + Real.pi
  else if x < 0 ∧ y < 0 then Real.arctan (y / x) - Real.pi
  else if x = 0 ∧ 0 < y then Real.pi / 2
  else if x = 0 ∧ y < 0 then -(Real.pi / 2)
  else 0

/-- The local `a` of `SearchService.calculate_distance`:
`sin(dlat/2)**2 + cos(lat1_rad)*cos(lat2_rad)*sin(dlng/2)**2`. -/
noncomputable def haversineA (lat1 lng1 lat2 lng2 : ℝ) : ℝ :=
  Real.sin ((radiansR lat2 - radiansR lat1) / 2) ^ 2 +
    Real.cos (radiansR lat1) * Real.cos (radiansR lat2) *
      Real.sin ((radiansR lng2 - radiansR lng1) / 2) ^ 2

/-- `SearchService.calculate_distance`: haversine distance in meters with
Earth radius 6,371,000 m, `c = 2*atan2(sqrt(a), sqrt(1-a))`, result `R*c`.
Modelled over ℝ (exact real arithmetic in place of IEEE floats). -/
noncomputable def calculate_distance (lat1 lng1 lat2 lng2 : ℝ) : ℝ :=
  6371000 * (2 * atan2 (Real.sqrt (haversineA lat1 lng1 lat2 lng2))
    (Real.sqrt (1 - haversineA lat1 lng1 lat2 lng2)))

lemma sin_half_sq_comm (u v : ℝ) : Real.sin ((u - v) / 2) ^ 2 = Real.sin ((v - u) / 2) ^ 2 := by
  have h : (u - v) / 2 = -((v - u) / 2) := by ring
  rw [h, Real.sin_neg, neg_sq]

lemma haversineA_symm (lat1 lng1 lat2 lng2 : ℝ) :
    haversineA lat1 lng1 lat2 lng2 = haversineA lat2 lng2 lat1 lng1 := by
  unfold haversineA
  rw [sin_half_sq_comm, sin_half_sq_comm (radiansR lng2) (radiansR lng1),
    mul_comm (Real.cos (radiansR lat1)) (Real.cos (radiansR lat2))]

lemma haversineA_self (lat lng : ℝ) : haversineA lat lng lat lng = 0 := by
  unfold haversineA
  simp

lemma atan2_zero_one : atan2 0 1 = 0 := by
  unfold atan2
  rw [if_pos one_pos]
  simp [Real.arctan_zero]

/-- C9: on coordinates in the valid ranges (latitude in [-90, 90], longitude
in [-180, 180]), the haversine distance is symmetric and vanishes on equal
points — exactly, in the real-number model, hence a fortiori within floating
tolerance. -/
theorem calculate_distance_symm_and_self_zero (lat1 lng1 lat2 lng2 : ℝ)
    (_h₁ : -90 ≤ lat1 ∧ lat1 ≤ 90) (_h₂ : -180 ≤ lng1 ∧ lng1 ≤ 180)
    (_h₃ : -90 ≤ lat2 ∧ lat2 ≤ 90) (_h₄ : -180 ≤ lng2 ∧ lng2 ≤ 180) :
    calculate_distance lat1 lng1 lat2 lng2 = calculate_distance lat2 lng2 lat1 lng1
    ∧ calculate_distance lat1 lng1 lat1 lng1 = 0 := by
  constructor
  · unfold calculate_distance
    rw [haversineA_symm]
  · unfold calculate_distance
    rw [haversineA_self]
    simp [atan2_zero_one]

/-- Witness for C9: concrete coordinates (10, 20) and (-30, 40). -/
theorem calculate_distance_symm_and_self_zero_witness :
    ((-90 : ℝ) ≤ 10 ∧ (10 : ℝ) ≤ 90) ∧ ((-180 : ℝ) ≤ 20 ∧ (20 : ℝ) ≤ 180)
    ∧ ((-90 : ℝ) ≤ -30 ∧ (-30 : ℝ) ≤ 90) ∧ ((-180 : ℝ) ≤ 40 ∧ (40 : ℝ) ≤ 180)
    ∧ (calculate_distance 10 20 (-30) 40 = calculate_distance (-30) 40 10 20
        ∧ calculate_distance 10 20 10 20 = 0) :=
  ⟨by norm_num, by norm_num, by norm_num, by norm_num,
    calculate_distance_symm_and_self_zero 10 20 (-30) 40
      (by norm_num) (by norm_num) (by norm_num) (by norm_num)⟩

end CafeService
